import Mathlib

/-!
Verification development for the EV V2G simulation components
(`v2g_controller_component`, `user_component`).

Shallow embedding conventions:
* Python `float` values are modelled as `ℚ`.
* UTC instants (ISO-8601 strings parsed with `to_utc_datetime_object`) are
  modelled as `ℤ` (seconds); lexicographic order on the uniform ISO strings
  coincides with chronological order, so the same value is used both for the
  raw-string sort keys and for the parsed-datetime comparisons.
* `user_id` values are modelled as `ℕ` (`0` marks a vacant slot).
* Python `sorted` (a stable sort) is modelled by `List.insertionSort`, which
  is also stable, hence extensionally equal on every input.
* Fallible code (the `required_energy / (epoch_length / 3600)` division,
  which raises `ZeroDivisionError` in Python when `epoch_length = 0`) is
  modelled in `Option`.
-/

namespace V2G

/-- Dataclass `UserData` from `v2g_controller_component/user_data.py`. -/
structure UserData where
  user_id : ℕ
  user_name : String
  user_component_name : String
  station_id : String
  state_of_charge : ℚ
  car_battery_capacity : ℚ
  car_model : String
  car_max_power : ℚ
  target_state_of_charge : ℚ := 0
  required_energy : ℚ := 0
  arrival_time : ℤ := 0
  target_time : ℤ := 0
  discharge : Bool := false
deriving Repr, DecidableEq

/-- Dataclass `StationData` from `v2g_controller_component/station_data.py`. -/
structure StationData where
  station_id : String
  max_power : ℚ
  charging_cost : ℚ
  compensation_amount : ℚ
deriving Repr, DecidableEq

/-- Dataclass `PowerInfo` from `v2g_controller_component/power_info.py`. -/
structure PowerInfo where
  user_id : ℕ
  station_id : String
  station_max_power : ℚ := 0
  car_max_power : ℚ := 0
  state_of_charge : ℚ := 0
  target_state_of_charge : ℚ := 0
  required_energy : ℚ := 0
  target_time : ℤ := 0
deriving Repr, DecidableEq

/-- One row of `v2g_user_preferences.csv` as loaded by
`_load_user_preferences_from_file` (the three numeric columns). -/
structure UserPreference where
  minimum_soc : ℚ
  max_cost_for_charging : ℚ
  discharge_price_threshold : ℚ
deriving Repr, DecidableEq

/-- Payload of one outbound `PowerRequirementMessage`
(`StationId`, `UserId`, `Power`), as built in
`_send_single_power_requirement_message`. -/
structure PowerRequirementMsg where
  station_id : String
  user_id : ℕ
  power : ℚ
deriving Repr, DecidableEq

/-- Payload of one outbound `CarDischargePowerRequirementMessage`
(`StationId`, `UserId`, `Power`), as built in
`_send_single_discharge_power_requirement_message`. -/
structure CarDischargeMsg where
  station_id : String
  user_id : ℕ
  power : ℚ
deriving Repr, DecidableEq

/-- Constant `DEFAULT_MIN_STATE_OF_CHARGE = 50.0` of the controller. -/
def DEFAULT_MIN_STATE_OF_CHARGE : ℚ := 50

/-- Constant `MAX_STATE_OF_CHARGE = 100.0` of the controller. -/
def MAX_STATE_OF_CHARGE : ℚ := 100

/-- The connected-user filter of `_send_power_requirement_message`:
`start_time >= arrival_time and end_time <= target_time`. -/
def connected_users (users : List UserData) (start_time end_time : ℤ) :
    List UserData :=
  users.filter fun u =>
    decide (start_time ≥ u.arrival_time) && decide (end_time ≤ u.target_time)

/-- The sort key of `sorted(connected_users, key=lambda user:
(user.target_time, -user.required_energy))`: lexicographic order on the pair
`(target_time, -required_energy)`. -/
def userPrio (a b : UserData) : Prop :=
  a.target_time < b.target_time ∨
    (a.target_time = b.target_time ∧ b.required_energy ≤ a.required_energy)

instance : DecidableRel userPrio := fun a b =>
  inferInstanceAs (Decidable (a.target_time < b.target_time ∨
    (a.target_time = b.target_time ∧ b.required_energy ≤ a.required_energy)))

instance : IsTotal UserData userPrio where
  total a b := by
    unfold userPrio
    rcases lt_trichotomy a.target_time b.target_time with h | h | h
    · exact Or.inl (Or.inl h)
    · rcases le_total b.required_energy a.required_energy with h2 | h2
      · exact Or.inl (Or.inr ⟨h, h2⟩)
      · exact Or.inr (Or.inr ⟨h.symm, h2⟩)
    · exact Or.inr (Or.inl h)

instance : IsTrans UserData userPrio where
  trans a b c hab hbc := by
    unfold userPrio at *
    rcases hab with h1 | ⟨h1, h2⟩ <;> rcases hbc with h3 | ⟨h3, h4⟩
    · exact Or.inl (h1.trans h3)
    · exact Or.inl (h3 ▸ h1)
    · exact Or.inl (h1 ▸ h3)
    · exact Or.inr ⟨h1.trans h3, h4.trans h2⟩

/-- The sort key of `sorted(power_requirements, key=lambda power_info:
(power_info.target_time, -power_info.required_energy))` in
`_calculate_power_requirements`. -/
def piPrio (a b : PowerInfo) : Prop :=
  a.target_time < b.target_time ∨
    (a.target_time = b.target_time ∧ b.required_energy ≤ a.required_energy)

instance : DecidableRel piPrio := fun a b =>
  inferInstanceAs (Decidable (a.target_time < b.target_time ∨
    (a.target_time = b.target_time ∧ b.required_energy ≤ a.required_energy)))

instance : IsTotal PowerInfo piPrio where
  total a b := by
    unfold piPrio
    rcases lt_trichotomy a.target_time b.target_time with h | h | h
    · exact Or.inl (Or.inl h)
    · rcases le_total b.required_energy a.required_energy with h2 | h2
      · exact Or.inl (Or.inr ⟨h, h2⟩)
      · exact Or.inr (Or.inr ⟨h.symm, h2⟩)
    · exact Or.inr (Or.inl h)

instance : IsTrans PowerInfo piPrio where
  trans a b c hab hbc := by
    unfold piPrio at *
    rcases hab with h1 | ⟨h1, h2⟩ <;> rcases hbc with h3 | ⟨h3, h4⟩
    · exact Or.inl (h1.trans h3)
    · exact Or.inl (h3 ▸ h1)
    · exact Or.inl (h1 ▸ h3)
    · exact Or.inr ⟨h1.trans h3, h4.trans h2⟩

/-- The `PowerInfo` built for a connected user in
`_calculate_power_requirements`. -/
def mkPowerInfo (station : StationData) (user : UserData) : PowerInfo where
  user_id := user.user_id
  station_id := user.station_id
  station_max_power := station.max_power
  car_max_power := user.car_max_power
  state_of_charge := user.state_of_charge
  target_state_of_charge := user.target_state_of_charge
  required_energy := user.required_energy
  target_time := user.target_time

/-- The `power_requirements` list built by the station loop of
`_calculate_power_requirements`: for every station, one `PowerInfo` per
connected user whose `station_id` matches. -/
def occupied_slots (stations : List StationData)
    (connected : List UserData) : List PowerInfo :=
  stations.flatMap fun station =>
    (connected.filter fun u => u.station_id == station.station_id).map
      (mkPowerInfo station)

/-- The `empty_power_requirements` list of `_calculate_power_requirements`:
`PowerInfo(user_id=0, station_id=station.station_id)` for every station
with no matching connected user. -/
def empty_slots (stations : List StationData)
    (connected : List UserData) : List PowerInfo :=
  (stations.filter fun station =>
      !(connected.any fun u => u.station_id == station.station_id)).map
    fun station => { user_id := 0, station_id := station.station_id }

/-- `_calculate_power_requirements`: the occupied slots sorted by
`(target_time, -required_energy)`, then the vacant slots in station
order. -/
def calculate_power_requirements (stations : List StationData)
    (connected : List UserData) : List PowerInfo :=
  List.insertionSort piPrio (occupied_slots stations connected) ++
    empty_slots stations connected

/-- Body of the per-slot allocation in `_send_power_requirement_message`
(lines 328-349): power defaults to `0.0`; for an occupied slot
(`user_id != 0`) with `used_total_power < current_available_power` and
`target_state_of_charge > state_of_charge`, the power is
`min(station_max_power, car_max_power, available - used,
required_energy / (epoch_length / 3600))` and is added to the accumulator.
The division raises `ZeroDivisionError` when `epoch_length = 0` (modelled as
`none`).  Returns `(power, new used_total_power)`. -/
def alloc_step (current_available_power : ℚ) (epoch_length : ℤ) (used : ℚ)
    (power_info : PowerInfo) : Option (ℚ × ℚ) :=
  if power_info.user_id ≠ 0 then
    if used < current_available_power then
      if power_info.target_state_of_charge > power_info.state_of_charge then
        if (epoch_length : ℚ) / 3600 = 0 then none
        else
          some (min power_info.station_max_power
              (min power_info.car_max_power
                (min (current_available_power - used)
                  (power_info.required_energy / ((epoch_length : ℚ) / 3600)))),
            used + min power_info.station_max_power
              (min power_info.car_max_power
                (min (current_available_power - used)
                  (power_info.required_energy / ((epoch_length : ℚ) / 3600)))))
      else some (0, used)
    else some (0, used)
  else some (0, used)

/-- The allocation loop of `_send_power_requirement_message`: runs
`alloc_step` over the power-requirement list, threading the accumulator
`used_total_power`, and emits one `PowerRequirementMessage` per slot. -/
def alloc_run (current_available_power : ℚ) (epoch_length : ℤ) :
    List PowerInfo → ℚ → Option (ℚ × List PowerRequirementMsg)
  | [], used => some (used, [])
  | power_info :: rest, used =>
    match alloc_step current_available_power epoch_length used power_info with
    | none => none
    | some (p, used2) =>
      match alloc_run current_available_power epoch_length rest used2 with
      | none => none
      | some (usedF, msgs) =>
        some (usedF,
          { station_id := power_info.station_id,
            user_id := power_info.user_id,
            power := p } :: msgs)

/-- The `connected_users` list of `_send_power_requirement_message` after
`sorted(connected_users, key=lambda user:
(user.target_time, -user.required_energy))`. -/
def sorted_connected_users (users : List UserData)
    (start_time end_time : ℤ) : List UserData :=
  List.insertionSort userPrio (connected_users users start_time end_time)

/-- `_send_power_requirement_message`: filters the connected users, sorts
them by `(target_time, -required_energy)`, builds the per-station
power-requirement slots, and runs the greedy allocation with
`epoch_length = end_time - start_time`, starting from
`used_total_power = 0` (`clear_epoch_variables` resets the accumulator each
epoch).  Returns the emitted messages, or `none` if the division failed. -/
def send_power_requirement_message (users : List UserData)
    (stations : List StationData) (current_available_power : ℚ)
    (start_time end_time : ℤ) : Option (List PowerRequirementMsg) :=
  match alloc_run current_available_power (end_time - start_time)
      (calculate_power_requirements stations
        (sorted_connected_users users start_time end_time)) 0 with
  | none => none
  | some (_, msgs) => some msgs

/-- Table `grid_load_daily.csv` (`time` and `grid_on_load` columns) together
with `_is_grid_under_load`: return on the first row whose `time` equals the
epoch start hour whether `grid_on_load == "1"`; default `False`. -/
def is_grid_under_load (table : List (String × String)) (hour_str : String) :
    Bool :=
  match table.find? fun row => row.1 == hour_str with
  | some row => row.2 == "1"
  | none => false

/-- `_check_user_discharge_need`: returns `False` without touching the user
when no preference record exists; otherwise, when the grid is under load, a
station matching `user.station_id` exists and
`discharge_price_threshold <= compensation_amount`, it sets
`user.discharge = True`; in every case it finally returns `user.discharge`.
The result is the (possibly updated) user together with the returned
boolean. -/
def check_user_discharge_need (user_preferences : List (ℕ × UserPreference))
    (under_load : Bool) (stations : List StationData) (user : UserData) :
    UserData × Bool :=
  match List.lookup user.user_id user_preferences with
  | none => (user, false)
  | some pref =>
    if under_load then
      match stations.find? fun s => s.station_id == user.station_id with
      | some station =>
        if pref.discharge_price_threshold ≤ station.compensation_amount then
          let user2 := { user with discharge := true }
          (user2, user2.discharge)
        else (user, user.discharge)
      | none => (user, user.discharge)
    else (user, user.discharge)

/-- The loop of `_send_car_discharge_power_requirement_message` (lines
468-473): for each user of `self._users` it parses that user's
`arrival_time`/`target_time` and then REBUILDS `discharge_users` as a list
comprehension whose loop variable shadows `user`, so the window test uses the
arrival/target times of the OUTER loop's current user; after the loop only
the last iteration's list survives.  Modelled as the literal fold (initial
value `[]`). -/
def discharge_users_calc (users : List UserData) (start_time end_time : ℤ) :
    List UserData :=
  users.foldl
    (fun _ user =>
      users.filter fun u =>
        u.discharge && decide (start_time ≥ user.arrival_time) &&
          decide (end_time ≤ user.target_time))
    []

/-- The `Power` attribute of one `CarDischargePowerRequirementMessage` in
`_send_single_discharge_power_requirement_message`:
`car_battery_capacity * (state_of_charge - target_state_of_charge) / 100`. -/
def car_discharge_power (user : UserData) : ℚ :=
  user.car_battery_capacity *
    (user.state_of_charge - user.target_state_of_charge) / 100

/-- `_send_car_discharge_power_requirement_message`: one
`CarDischargePowerRequirementMessage` per user in `discharge_users`. -/
def send_car_discharge_power_requirement_message (users : List UserData)
    (start_time end_time : ℤ) : List CarDischargeMsg :=
  (discharge_users_calc users start_time end_time).map fun user =>
    { station_id := user.station_id,
      user_id := user.user_id,
      power := car_discharge_power user }

/-- Per-epoch mutable state of `V2GControllerComponent` (the fields touched
by `general_message_handler` and `clear_epoch_variables`). -/
structure CtrlState where
  users : List UserData
  stations : List StationData
  user_preferences : List (ℕ × UserPreference)
  total_max_power : ℚ
  current_available_power : ℚ
  epoch_car_metadata_count : ℕ
  epoch_station_state_count : ℕ
  epoch_user_state_count : ℕ
  epoch_car_state_count : ℕ
  used_total_power : ℚ
  station_state_received : Bool
  user_state_received : Bool
  car_state_received : Bool
  grid_state_received : Bool
  power_requirement_message_sent : Bool
  send_car_discharge_power_requirement : Bool
  total_max_power_output_received : Bool
deriving Repr, DecidableEq

/-- `clear_epoch_variables` of the controller: resets the per-epoch counters
and flags and empties `self._stations`; it does NOT touch `self._users`
(hence not the per-user `discharge` flags). -/
def clear_epoch_variables (s : CtrlState) : CtrlState :=
  { s with
    epoch_station_state_count := 0
    epoch_user_state_count := 0
    epoch_car_state_count := 0
    used_total_power := 0
    station_state_received := false
    user_state_received := false
    car_state_received := false
    power_requirement_message_sent := false
    stations := []
    send_car_discharge_power_requirement := false }

/-- Payload of an inbound `CarMetaDataMessage`. -/
structure CarMetaDataMsg where
  user_id : ℕ
  user_name : String
  source_process_id : String
  station_id : String
  state_of_charge : ℚ
  car_battery_capacity : ℚ
  car_model : String
  car_max_power : ℚ
deriving Repr, DecidableEq

/-- Payload of an inbound `StationStateMessage`. -/
structure StationStateMsg where
  station_id : String
  max_power : ℚ
  charging_cost : ℚ
  compensation_amount : ℚ
deriving Repr, DecidableEq

/-- Payload of an inbound `UserStateMessage` (`UserId`, `ArrivalTime`,
`TargetTime`). -/
structure UserStateMsg where
  user_id : ℕ
  arrival_time : ℤ
  target_time : ℤ
deriving Repr, DecidableEq

/-- `CarMetaDataMessage` branch of the controller's
`general_message_handler`: a second metadata message for a known `user_id`
is dropped with a warning; otherwise the new `UserData` is appended and
`_epoch_car_metadata_count` is incremented. -/
def handleCarMetaData (s : CtrlState) (m : CarMetaDataMsg) : CtrlState :=
  let carMetaDatainfo : UserData :=
    { user_id := m.user_id
      user_name := m.user_name
      user_component_name := m.source_process_id
      station_id := m.station_id
      state_of_charge := m.state_of_charge
      car_battery_capacity := m.car_battery_capacity
      car_model := m.car_model
      car_max_power := m.car_max_power }
  if carMetaDatainfo.user_id ∈ s.users.map fun user => user.user_id
  then s
  else
    { s with
      users := s.users ++ [carMetaDatainfo]
      epoch_car_metadata_count := s.epoch_car_metadata_count + 1 }

/-- `StationStateMessage` branch of the controller's
`general_message_handler`: a second message for a known `station_id` is
dropped; otherwise the new `StationData` is appended and
`_epoch_station_state_count` is incremented. -/
def handleStationState (s : CtrlState) (m : StationStateMsg) : CtrlState :=
  let stationInfo : StationData :=
    { station_id := m.station_id
      max_power := m.max_power
      charging_cost := m.charging_cost
      compensation_amount := m.compensation_amount }
  if stationInfo.station_id ∈ s.stations.map fun station => station.station_id
  then s
  else
    { s with
      stations := s.stations ++ [stationInfo]
      epoch_station_state_count := s.epoch_station_state_count + 1 }

/-- The per-user update of the `UserStateMessage` branch (lines 230-246):
`target_state_of_charge` is overwritten with `MinimumSOC * 100` from the
preference table (or `DEFAULT_MIN_STATE_OF_CHARGE` when no record exists),
`target_time`/`arrival_time` are taken from the message, and
`required_energy = car_battery_capacity *
(target_state_of_charge - state_of_charge) / 100` is recomputed. -/
def user_state_update (user_preferences : List (ℕ × UserPreference))
    (m : UserStateMsg) (user : UserData) : UserData :=
  let target := match List.lookup user.user_id user_preferences with
    | some pref => pref.minimum_soc * 100
    | none => DEFAULT_MIN_STATE_OF_CHARGE
  { user with
    target_state_of_charge := target
    target_time := m.target_time
    arrival_time := m.arrival_time
    required_energy :=
      user.car_battery_capacity * (target - user.state_of_charge) / 100 }

/-- Update the first list element satisfying the predicate (the Python
`for ... if ...: ...; break` pattern). -/
def updateFirst (p : UserData → Bool) (f : UserData → UserData) :
    List UserData → List UserData
  | [] => []
  | u :: rest => if p u then f u :: rest else u :: updateFirst p f rest

/-- `UserStateMessage` branch of the controller's `general_message_handler`:
a message for a user without metadata is ignored; otherwise the first user
with the matching `user_id` is updated via `user_state_update` and
`_epoch_user_state_count` is incremented (there is NO duplicate guard). -/
def handleUserState (s : CtrlState) (m : UserStateMsg) : CtrlState :=
  if m.user_id ∉ s.users.map fun user => user.user_id then s
  else
    { s with
      users := updateFirst (fun user => user.user_id == m.user_id)
        (user_state_update s.user_preferences m) s.users
      epoch_user_state_count := s.epoch_user_state_count + 1 }

/-- Per-epoch mutable state of `UserComponent` (the fields touched by its
`general_message_handler`). -/
structure UserAgentState where
  state_of_charge : ℚ
  discharged_power : ℚ
  power_output_received : Bool
  car_discharge_power_requirement_received : Bool
deriving Repr, DecidableEq

/-- Static configuration of one `UserComponent`. -/
structure UserAgentConfig where
  user_id : ℕ
  station_id : String
  car_battery_capacity : ℚ
  car_metadata_topic : String := "Init.User.CarMetadata"
  power_discharge_car_to_station_topic : String := "PowerDischargeCarToStation"
deriving Repr, DecidableEq

/-- Payload of an inbound `PowerOutputMessage`. -/
structure PowerOutputMsg where
  station_id : String
  user_id : ℕ
  power_output : ℚ
deriving Repr, DecidableEq

/-- Payload of an inbound `CarDischargePowerRequirementMessage` at the user
(same shape as `CarDischargeMsg`). -/
structure CarDischargeInMsg where
  station_id : String
  user_id : ℕ
  power : ℚ
deriving Repr, DecidableEq

/-- The SoC update of the user's `PowerOutputMessage` branch (lines
239-250): convert battery energy, add `power_output * epoch_length / 3600`
kWh, convert back to percent and clamp from above at `100.0` (there is no
clamp from below). -/
def power_output_soc_update (car_battery_capacity state_of_charge : ℚ)
    (power_output : ℚ) (epoch_length : ℤ) : ℚ :=
  let original_energy := car_battery_capacity * state_of_charge / 100
  let new_energy := power_output * (epoch_length : ℚ) / 3600
  let new_total_energy := original_energy + new_energy
  let new_soc := new_total_energy / car_battery_capacity * 100
  min new_soc 100

/-- The SoC update of the user's `CarDischargePowerRequirementMessage`
branch (lines 274-286): subtract `power * epoch_length / 3600` kWh, convert
back to percent and clamp from above at `100.0` — the code applies
`min(new_soc, 100.0)` and NO lower clamp.  Returns
`(new state_of_charge, discharged_power)`. -/
def discharge_soc_update (car_battery_capacity state_of_charge : ℚ)
    (power : ℚ) (epoch_length : ℤ) : ℚ × ℚ :=
  let original_energy := car_battery_capacity * state_of_charge / 100
  let new_energy := power * (epoch_length : ℚ) / 3600
  let new_total_energy := original_energy - new_energy
  let new_soc := min (new_total_energy / car_battery_capacity * 100) 100
  (new_soc, new_energy)

/-- `PowerOutputMessage` branch of the user's `general_message_handler`:
messages for another `(station_id, user_id)` are ignored; a duplicate within
the epoch (`power_output_received` already set) is dropped with a warning;
otherwise the SoC is updated and the flag is set. -/
def handlePowerOutput (cfg : UserAgentConfig) (s : UserAgentState)
    (m : PowerOutputMsg) (epoch_length : ℤ) : UserAgentState :=
  if m.station_id = cfg.station_id ∧ m.user_id = cfg.user_id then
    if s.power_output_received then s
    else
      { s with
        state_of_charge := power_output_soc_update cfg.car_battery_capacity
          s.state_of_charge m.power_output epoch_length
        power_output_received := true }
  else s

/-- `CarDischargePowerRequirementMessage` branch of the user's
`general_message_handler`: messages for another `(station_id, user_id)` are
ignored; a duplicate within the epoch is dropped with a warning; otherwise
the SoC is updated, `discharged_power` is recorded and the flag is set. -/
def handleCarDischargeRequirement (cfg : UserAgentConfig)
    (s : UserAgentState) (m : CarDischargeInMsg) (epoch_length : ℤ) :
    UserAgentState :=
  if m.station_id = cfg.station_id ∧ m.user_id = cfg.user_id then
    if s.car_discharge_power_requirement_received then s
    else
      let r := discharge_soc_update cfg.car_battery_capacity
        s.state_of_charge m.power epoch_length
      { s with
        state_of_charge := r.1
        discharged_power := r.2
        car_discharge_power_requirement_received := true }
  else s

/-- Payload of the outbound `PowerDischargeCarToStationMessage`. -/
structure PowerDischargeCarToStationMsg where
  user_id : ℕ
  station_id : String
  power : ℚ
deriving Repr, DecidableEq

/-- `_send_power_discharge_car_to_station_message` of the user component:
builds the `PowerDischargeCarToStationMessage` with the recorded
`discharged_power` and publishes it — on `self._car_metadata_topic` (the
source passes the car-metadata topic, not
`self._power_discharge_car_to_station_topic`, to `send_message`).  Returns
`(topic used, message)`. -/
def send_power_discharge_car_to_station_message (cfg : UserAgentConfig)
    (s : UserAgentState) : String × PowerDischargeCarToStationMsg :=
  (cfg.car_metadata_topic,
    { user_id := cfg.user_id
      station_id := cfg.station_id
      power := s.discharged_power })

/-- Modelled from the spec (section 4.3), for comparison with
`check_user_discharge_need`: the conjunction of the four discharge
conditions — a registered preference record exists, the grid is under load,
a station matching `user.station_id` exists this epoch, and
`discharge_price_threshold ≤ compensation_amount`. -/
def discharge_conditions_spec (user_preferences : List (ℕ × UserPreference))
    (under_load : Bool) (stations : List StationData) (user : UserData) :
    Bool :=
  match List.lookup user.user_id user_preferences,
      stations.find? fun s => s.station_id == user.station_id with
  | some pref, some station =>
    under_load &&
      decide (pref.discharge_price_threshold ≤ station.compensation_amount)
  | _, _ => false

/-- Example user for the discharge-flag analysis: flagged in an earlier
epoch (`discharge = true`). -/
def c5_user : UserData :=
  { user_id := 1, user_name := "user1", user_component_name := "User1",
    station_id := "S1", state_of_charge := 80, car_battery_capacity := 40,
    car_model := "model", car_max_power := 22,
    target_state_of_charge := 70, discharge := true }

/-- Example preference table: user 1 has `discharge_price_threshold = 5`. -/
def c5_prefs : List (ℕ × UserPreference) :=
  [(1, { minimum_soc := 1, max_cost_for_charging := 1,
         discharge_price_threshold := 5 })]

/-- Example station list: station `S1` pays `compensation_amount = 3 < 5`. -/
def c5_stations : List StationData :=
  [{ station_id := "S1", max_power := 22, charging_cost := 1,
     compensation_amount := 3 }]

/-- Example discharge-flagged user whose occupancy window `[0, 10000]`
contains the epoch `[0, 3600]`. -/
def c6_user1 : UserData :=
  { user_id := 1, user_name := "user1", user_component_name := "User1",
    station_id := "S1", state_of_charge := 80, car_battery_capacity := 40,
    car_model := "m1", car_max_power := 22, target_state_of_charge := 70,
    arrival_time := 0, target_time := 10000, discharge := true }

/-- Example unflagged user whose occupancy window `[5000, 6000]` does not
contain the epoch `[0, 3600]`; it is the LAST element of the users list. -/
def c6_user2 : UserData :=
  { user_id := 2, user_name := "user2", user_component_name := "User2",
    station_id := "S2", state_of_charge := 50, car_battery_capacity := 40,
    car_model := "m2", car_max_power := 22,
    arrival_time := 5000, target_time := 6000 }

/-- Example user-component configuration with the default topic strings. -/
def c9_cfg : UserAgentConfig :=
  { user_id := 1, station_id := "S1", car_battery_capacity := 40 }

/-- Example user-component state after a discharge requirement has been
processed (`discharged_power = 4`). -/
def c9_state : UserAgentState :=
  { state_of_charge := 50, discharged_power := 4,
    power_output_received := false,
    car_discharge_power_requirement_received := true }

/-- Example user record known to the controller (metadata received). -/
def c7_user : UserData :=
  { user_id := 1, user_name := "user1", user_component_name := "User1",
    station_id := "S1", state_of_charge := 20, car_battery_capacity := 40,
    car_model := "m", car_max_power := 22 }

/-- Example controller state in the middle of an epoch, before any
`UserStateMessage` has arrived. -/
def c7_state : CtrlState :=
  { users := [c7_user], stations := [], user_preferences := [],
    total_max_power := 50, current_available_power := 50,
    epoch_car_metadata_count := 1, epoch_station_state_count := 0,
    epoch_user_state_count := 0, epoch_car_state_count := 0,
    used_total_power := 0, station_state_received := false,
    user_state_received := false, car_state_received := false,
    grid_state_received := false, power_requirement_message_sent := false,
    send_car_discharge_power_requirement := false,
    total_max_power_output_received := true }

/-- Example `UserStateMessage` for user 1. -/
def c7_msg : UserStateMsg :=
  { user_id := 1, arrival_time := 0, target_time := 7200 }

/-- Example connected user (window `[0, 7200]`, `target_state_of_charge =
80 > 20 = state_of_charge`, `required_energy = 24`). -/
def c8_user : UserData :=
  { user_id := 1, user_name := "user1", user_component_name := "User1",
    station_id := "S1", state_of_charge := 20, car_battery_capacity := 40,
    car_model := "m", car_max_power := 11, target_state_of_charge := 80,
    required_energy := 24, arrival_time := 0, target_time := 7200 }

/-- Example station matching `c8_user`. -/
def c8_station : StationData :=
  { station_id := "S1", max_power := 22, charging_cost := 1,
    compensation_amount := 0 }

/-- Example occupied allocation slot with
`target_state_of_charge > state_of_charge`. -/
def c8_pi : PowerInfo :=
  { user_id := 1, station_id := "S1", station_max_power := 22,
    car_max_power := 11, state_of_charge := 20,
    target_state_of_charge := 80, required_energy := 24,
    target_time := 7200 }

/-- Example connected user for the capacity-bound witness. -/
def c2_user : UserData :=
  { user_id := 1, user_name := "user1", user_component_name := "User1",
    station_id := "S1", state_of_charge := 20, car_battery_capacity := 40,
    car_model := "m", car_max_power := 11, target_state_of_charge := 80,
    required_energy := 24, arrival_time := 0, target_time := 7200 }

/-- Example station for the capacity-bound witness. -/
def c2_station : StationData :=
  { station_id := "S1", max_power := 22, charging_cost := 1,
    compensation_amount := 0 }

/-- Example connected user at station `S1` for the one-message-per-station
witness. -/
def c3_user : UserData :=
  { user_id := 1, user_name := "user1", user_component_name := "User1",
    station_id := "S1", state_of_charge := 20, car_battery_capacity := 40,
    car_model := "m", car_max_power := 11, target_state_of_charge := 80,
    required_energy := 24, arrival_time := 0, target_time := 7200 }

/-- Example occupied station `S1`. -/
def c3_station1 : StationData :=
  { station_id := "S1", max_power := 22, charging_cost := 1,
    compensation_amount := 0 }

/-- Example vacant station `S2`. -/
def c3_station2 : StationData :=
  { station_id := "S2", max_power := 30, charging_cost := 1,
    compensation_amount := 0 }

/-- C4: the user's discharge SoC update does NOT clamp the state of charge
at 0 from below — at `car_battery_capacity = 100`, `state_of_charge = 10`,
discharge `Power = 20` over a 3600-second epoch the code yields
`state_of_charge = -10 < 0`, while the claim (and spec section 4.4) require
the result to be clamped at 0. -/
theorem discharge_soc_update_negative :
    (discharge_soc_update 100 10 20 3600).1 = -10 ∧
      (discharge_soc_update 100 10 20 3600).1 < 0 := by
  constructor <;> norm_num [discharge_soc_update]

/-- C9: the `PowerDischargeCarToStationMessage` built after a discharge
requirement is published on the user's car-metadata topic
(`"Init.User.CarMetadata"`), NOT on the configured
`PowerDischargeCarToStation` topic — the source passes
`self._car_metadata_topic` to `send_message`. -/
theorem power_discharge_wrong_topic :
    (send_power_discharge_car_to_station_message c9_cfg c9_state).1 =
        "Init.User.CarMetadata" ∧
      c9_cfg.power_discharge_car_to_station_topic =
        "PowerDischargeCarToStation" ∧
      (send_power_discharge_car_to_station_message c9_cfg c9_state).1 ≠
        c9_cfg.power_discharge_car_to_station_topic ∧
      (send_power_discharge_car_to_station_message c9_cfg c9_state).2.power =
        c9_state.discharged_power := by
  refine ⟨rfl, rfl, ?_, rfl⟩
  decide

/-- C10: the `UserStateMessage` update overwrites the stored
`target_state_of_charge` with `MinimumSOC * 100` from the preference table
(or `DEFAULT_MIN_STATE_OF_CHARGE = 50` when no record exists) and recomputes
`required_energy` from the new target, so the result does not depend on any
previously raised `target_state_of_charge` or `required_energy` (such as a
target raised to 100 by the willing-to-pay-more rule). -/
theorem user_state_update_discards_previous_target
    (prefs : List (ℕ × UserPreference)) (m : UserStateMsg) (u : UserData)
    (t0 r0 : ℚ) :
    user_state_update prefs m
        { u with target_state_of_charge := t0, required_energy := r0 } =
        user_state_update prefs m u ∧
      (user_state_update prefs m u).target_state_of_charge =
        (match List.lookup u.user_id prefs with
          | some pref => pref.minimum_soc * 100
          | none => DEFAULT_MIN_STATE_OF_CHARGE) ∧
      (user_state_update prefs m u).required_energy =
        u.car_battery_capacity *
          ((user_state_update prefs m u).target_state_of_charge -
            u.state_of_charge) / 100 := by
  unfold user_state_update
  cases List.lookup u.user_id prefs <;> simp

/-- C5 counterexample: a user flagged in an earlier epoch keeps
`discharge = true` in an epoch where condition 4 fails
(`discharge_price_threshold = 5 > compensation_amount = 3`), because
`_check_user_discharge_need` never resets the flag; so the flag is not
equivalent to the four per-epoch conditions. -/
theorem check_user_discharge_latched_counterexample :
    (check_user_discharge_need c5_prefs true c5_stations c5_user).1.discharge
        = true ∧
      (check_user_discharge_need c5_prefs true c5_stations c5_user).2
        = true ∧
      discharge_conditions_spec c5_prefs true c5_stations c5_user = false := by
  decide

/-- C5 (amended): after `_check_user_discharge_need` the user's `discharge`
flag equals its previous value OR the conjunction of the four conditions
(preference record exists, grid under load, matching station exists,
`discharge_price_threshold ≤ compensation_amount`); the returned boolean is
that flag gated on a preference record existing; and
`clear_epoch_variables` leaves `self._users` — hence the flags — untouched,
so the flag is latched across epochs rather than per-epoch. -/
theorem check_user_discharge_need_latched
    (prefs : List (ℕ × UserPreference)) (under_load : Bool)
    (stations : List StationData) (u : UserData) :
    ((check_user_discharge_need prefs under_load stations u).1.discharge =
        (u.discharge || discharge_conditions_spec prefs under_load stations u))
      ∧ ((check_user_discharge_need prefs under_load stations u).2 =
        ((List.lookup u.user_id prefs).isSome &&
          (check_user_discharge_need prefs under_load stations u).1.discharge))
      ∧ (∀ s : CtrlState, (clear_epoch_variables s).users = s.users) := by
  refine ⟨?_, ?_, fun s => rfl⟩
  · unfold check_user_discharge_need discharge_conditions_spec
    cases List.lookup u.user_id prefs <;>
      cases stations.find? fun s => s.station_id == u.station_id <;>
        cases under_load <;> simp <;> split <;> simp_all
  · unfold check_user_discharge_need
    cases List.lookup u.user_id prefs <;>
      cases stations.find? fun s => s.station_id == u.station_id <;>
        cases under_load <;> simp <;> split <;> simp_all

/-- C6 counterexample: user 1 is flagged for discharge and its occupancy
window `[0, 10000]` contains the epoch `[0, 3600]`, yet the discharge burst
is empty, because the window filter of
`_send_car_discharge_power_requirement_message` uses the arrival and target
times of the LAST user in the list (user 2, window `[5000, 6000]`). -/
theorem send_car_discharge_counterexample :
    send_car_discharge_power_requirement_message [c6_user1, c6_user2] 0 3600
        = [] ∧
      c6_user1.discharge = true ∧
      (0 : ℤ) ≥ c6_user1.arrival_time ∧
      (3600 : ℤ) ≤ c6_user1.target_time := by
  decide

/-- C6 (amended): the discharge burst contains one
`CarDischargePowerRequirementMessage`, with
`Power = car_battery_capacity * (state_of_charge − target_state_of_charge)
/ 100`, for each user flagged for discharge — but the occupancy-window test
applied to every user is the one of the LAST user in the list (the shadowed
comprehension of lines 470-473); with no users the burst is empty. -/
theorem send_car_discharge_uses_last_window (users : List UserData)
    (last : UserData) (start_time end_time : ℤ) :
    send_car_discharge_power_requirement_message (users ++ [last])
        start_time end_time =
      ((users ++ [last]).filter fun u =>
          u.discharge && decide (start_time ≥ last.arrival_time) &&
            decide (end_time ≤ last.target_time)).map
        (fun u =>
          { station_id := u.station_id, user_id := u.user_id,
            power := u.car_battery_capacity *
              (u.state_of_charge - u.target_state_of_charge) / 100 }) ∧
    send_car_discharge_power_requirement_message [] start_time end_time
      = [] := by
  constructor
  · unfold send_car_discharge_power_requirement_message discharge_users_calc
      car_discharge_power
    rw [List.foldl_append]
    simp
  · rfl

/-- C7 counterexample: the controller's `UserStateMessage` branch has no
duplicate guard, so delivering the same `UserStateMessage` a second time
within the epoch changes the state again (`_epoch_user_state_count` is
incremented a second time). -/
theorem replay_user_state_not_idempotent :
    handleUserState (handleUserState c7_state c7_msg) c7_msg ≠
        handleUserState c7_state c7_msg ∧
      CtrlState.epoch_user_state_count
          (handleUserState (handleUserState c7_state c7_msg) c7_msg) = 2 ∧
      CtrlState.epoch_user_state_count (handleUserState c7_state c7_msg)
        = 1 := by
  have h1 : CtrlState.epoch_user_state_count
      (handleUserState c7_state c7_msg) = 1 := by
    simp [handleUserState, c7_state, c7_msg, c7_user]
  have h2 : CtrlState.epoch_user_state_count
      (handleUserState (handleUserState c7_state c7_msg) c7_msg) = 2 := by
    simp [handleUserState, c7_state, c7_msg, c7_user, updateFirst,
      user_state_update]
  refine ⟨fun h => ?_, h2, h1⟩
  rw [congrArg CtrlState.epoch_user_state_count h, h1] at h2
  exact absurd h2 (by norm_num)

/-- C7 (amended): replay within the same epoch is dropped without any state
change exactly for the duplicate-guarded message types — `CarMetaData` and
`StationState` at the controller, `PowerOutput` and
`CarDischargePowerRequirement` at the user agent — while the controller's
`UserState` (and `CarState`) branches re-run and increment the per-epoch
counters again. -/
theorem guarded_handlers_idempotent :
    (∀ (s : CtrlState) (m : CarMetaDataMsg),
        handleCarMetaData (handleCarMetaData s m) m = handleCarMetaData s m)
      ∧ (∀ (s : CtrlState) (m : StationStateMsg),
        handleStationState (handleStationState s m) m =
          handleStationState s m)
      ∧ (∀ (cfg : UserAgentConfig) (s : UserAgentState) (m : PowerOutputMsg)
          (len : ℤ),
        handlePowerOutput cfg (handlePowerOutput cfg s m len) m len =
          handlePowerOutput cfg s m len)
      ∧ (∀ (cfg : UserAgentConfig) (s : UserAgentState)
          (m : CarDischargeInMsg) (len : ℤ),
        handleCarDischargeRequirement cfg
            (handleCarDischargeRequirement cfg s m len) m len =
          handleCarDischargeRequirement cfg s m len) := by
  refine ⟨fun s m => ?_, fun s m => ?_, fun cfg s m len => ?_,
    fun cfg s m len => ?_⟩
  · unfold handleCarMetaData
    by_cases h : m.user_id ∈ s.users.map fun user => user.user_id
    · simp [h]
    · simp [h]
  · unfold handleStationState
    by_cases h : m.station_id ∈ s.stations.map fun station => station.station_id
    · simp [h]
    · simp [h]
  · unfold handlePowerOutput
    by_cases h : m.station_id = cfg.station_id ∧ m.user_id = cfg.user_id
    · by_cases h2 : s.power_output_received <;> simp [h, h2]
    · simp [h]
  · unfold handleCarDischargeRequirement
    by_cases h : m.station_id = cfg.station_id ∧ m.user_id = cfg.user_id
    · by_cases h2 : s.car_discharge_power_requirement_received <;> simp [h, h2]
    · simp [h]

/-- C1: one step of the greedy allocation loop for an occupied slot
(`user_id ≠ 0`, epoch length nonzero): when
`target_state_of_charge > state_of_charge` and the power used so far is
below the available capacity, the allocated power is
`min(station_max_power, car_max_power, available − used,
required_energy / (epoch_length/3600))` and is added to the accumulator;
otherwise the allocated power is `0` and the accumulator is unchanged. -/
theorem alloc_step_greedy (C : ℚ) (len : ℤ) (used : ℚ) (pi : PowerInfo)
    (hid : pi.user_id ≠ 0) (hlen : len ≠ 0) :
    (pi.target_state_of_charge > pi.state_of_charge ∧ used < C →
        alloc_step C len used pi =
          some (min pi.station_max_power
              (min pi.car_max_power
                (min (C - used)
                  (pi.required_energy / ((len : ℚ) / 3600)))),
            used + min pi.station_max_power
              (min pi.car_max_power
                (min (C - used)
                  (pi.required_energy / ((len : ℚ) / 3600)))))) ∧
      (¬(pi.target_state_of_charge > pi.state_of_charge ∧ used < C) →
        alloc_step C len used pi = some (0, used)) := by
  have hdiv : ¬((len : ℚ) / 3600 = 0) := by
    rw [div_eq_zero_iff]
    push_neg
    exact ⟨by exact_mod_cast hlen, by norm_num⟩
  constructor
  · rintro ⟨h1, h2⟩
    simp [alloc_step, hid, h1, h2, hdiv]
  · intro h
    by_cases h2 : used < C
    · have h1 : ¬(pi.target_state_of_charge > pi.state_of_charge) :=
        fun h1 => h ⟨h1, h2⟩
      simp [alloc_step, hid, h1, h2]
    · simp [alloc_step, hid, h2]

/-- Witness for `alloc_step_greedy` at a concrete occupied slot
(station cap 22, car cap 11, available 10, required 5 kWh over one hour):
the allocation is `min(22, 11, 10, 5) = 5`. -/
theorem alloc_step_greedy_witness :
    ({ user_id := 1, station_id := "S1", station_max_power := 22,
       car_max_power := 11, state_of_charge := 20,
       target_state_of_charge := 80, required_energy := 5,
       target_time := 0 } : PowerInfo).user_id ≠ 0 ∧
      (3600 : ℤ) ≠ 0 ∧
      (((80 : ℚ) > 20 ∧ (0 : ℚ) < 10) →
        alloc_step 10 3600 0
            { user_id := 1, station_id := "S1", station_max_power := 22,
              car_max_power := 11, state_of_charge := 20,
              target_state_of_charge := 80, required_energy := 5,
              target_time := 0 } =
          some (min (22 : ℚ)
              (min (11 : ℚ) (min ((10 : ℚ) - 0)
                ((5 : ℚ) / (((3600 : ℤ) : ℚ) / 3600)))),
            0 + min (22 : ℚ)
              (min (11 : ℚ) (min ((10 : ℚ) - 0)
                ((5 : ℚ) / (((3600 : ℤ) : ℚ) / 3600)))))) :=
  ⟨by decide, by decide,
    (alloc_step_greedy 10 3600 0
      { user_id := 1, station_id := "S1", station_max_power := 22,
        car_max_power := 11, state_of_charge := 20,
        target_state_of_charge := 80, required_energy := 5,
        target_time := 0 } (by decide) (by decide)).1⟩

/-- C8 counterexample: with a zero-length epoch (`start_time = end_time`,
so `epoch_seconds = 0`) and one connected user with
`target_state_of_charge > state_of_charge`, the allocation routine does NOT
complete with power 0 for every user — the division
`required_energy / (epoch_seconds/3600)` fails (`ZeroDivisionError`,
modelled as `none`). -/
theorem send_power_requirement_zero_epoch_counterexample :
    send_power_requirement_message [c8_user] [c8_station] 10 0 0 = none := by
  unfold send_power_requirement_message
  norm_num [sorted_connected_users, connected_users,
    calculate_power_requirements, occupied_slots, empty_slots,
    List.insertionSort, List.orderedInsert, mkPowerInfo, alloc_run,
    alloc_step, c8_user, c8_station]

/-- C8 (amended): with `epoch_seconds = 0` the allocation fails with a
division by zero as soon as it processes an occupied slot with
`target_state_of_charge > state_of_charge` while `used <
current_available_power`; the loop does not complete and no zero powers are
produced. -/
theorem alloc_zero_epoch_fails (C used : ℚ) (pi : PowerInfo)
    (rest : List PowerInfo) (hid : pi.user_id ≠ 0) (hused : used < C)
    (htgt : pi.state_of_charge < pi.target_state_of_charge) :
    alloc_step C 0 used pi = none ∧ alloc_run C 0 (pi :: rest) used = none := by
  have h : alloc_step C 0 used pi = none := by
    simp [alloc_step, hid, hused, htgt]
  exact ⟨h, by unfold alloc_run; rw [h]⟩

/-- Witness for `alloc_zero_epoch_fails` at the concrete slot `c8_pi` with
available power 10 and accumulator 0. -/
theorem alloc_zero_epoch_fails_witness :
    c8_pi.user_id ≠ 0 ∧ (0 : ℚ) < 10 ∧
      c8_pi.state_of_charge < c8_pi.target_state_of_charge ∧
      (alloc_step 10 0 0 c8_pi = none ∧ alloc_run 10 0 (c8_pi :: []) 0 = none) :=
  ⟨by decide, by norm_num, by decide,
    alloc_zero_epoch_fails 10 0 c8_pi [] (by decide) (by norm_num) (by decide)⟩

lemma alloc_step_accum (C : ℚ) (len : ℤ) (used : ℚ) (pi : PowerInfo)
    (p used2 : ℚ) (h : alloc_step C len used pi = some (p, used2))
    (hC : used ≤ C) : used2 = used + p ∧ used2 ≤ C := by
  unfold alloc_step at h
  split_ifs at h with h1 h2 h3 h4
  all_goals
    first
      | exact Option.noConfusion h
      | (rw [Option.some_inj, Prod.mk.injEq] at h
         obtain ⟨hp, hu⟩ := h
         try
           have hple : p ≤ C - used := by
             rw [← hp]
             exact le_trans (min_le_right _ _)
               (le_trans (min_le_right _ _) (min_le_left _ _))
         exact ⟨by linarith, by linarith⟩)

lemma alloc_run_accum (C : ℚ) (len : ℤ) :
    ∀ (pis : List PowerInfo) (used usedF : ℚ)
      (msgs : List PowerRequirementMsg),
      alloc_run C len pis used = some (usedF, msgs) → used ≤ C →
        (msgs.map fun m => m.power).sum + used = usedF ∧ usedF ≤ C := by
  intro pis
  induction pis with
  | nil =>
    intro used usedF msgs h hC
    rw [alloc_run, Option.some_inj, Prod.mk.injEq] at h
    obtain ⟨hu, hm⟩ := h
    subst hu
    subst hm
    exact ⟨by simp, hC⟩
  | cons pi rest ih =>
    intro used usedF msgs h hC
    rw [alloc_run] at h
    split at h
    next heq => exact Option.noConfusion h
    next p used2 heq =>
      split at h
      next heq2 => exact Option.noConfusion h
      next uF msgs2 heq2 =>
        rw [Option.some_inj, Prod.mk.injEq] at h
        obtain ⟨hu, hm⟩ := h
        obtain ⟨ha1, ha2⟩ := alloc_step_accum C len used pi p used2 heq hC
        obtain ⟨hb1, hb2⟩ := ih used2 uF msgs2 heq2 ha2
        subst hu
        subst hm
        constructor
        · simp only [List.map_cons, List.sum_cons]
          linarith
        · exact hb2

lemma alloc_run_vacant_power_zero (C : ℚ) (len : ℤ) :
    ∀ (pis : List PowerInfo) (used usedF : ℚ)
      (msgs : List PowerRequirementMsg),
      alloc_run C len pis used = some (usedF, msgs) →
        ∀ m ∈ msgs, m.user_id = 0 → m.power = 0 := by
  intro pis
  induction pis with
  | nil =>
    intro used usedF msgs h
    rw [alloc_run, Option.some_inj, Prod.mk.injEq] at h
    rw [← h.2]
    intro m hm
    cases hm
  | cons pi rest ih =>
    intro used usedF msgs h m hm hm0
    rw [alloc_run] at h
    split at h
    next heq => exact Option.noConfusion h
    next p used2 heq =>
      split at h
      next heq2 => exact Option.noConfusion h
      next uF msgs2 heq2 =>
        rw [Option.some_inj, Prod.mk.injEq] at h
        rw [← h.2] at hm
        rcases List.mem_cons.mp hm with hm1 | hm1
        · subst hm1
          have hpid : pi.user_id = 0 := hm0
          unfold alloc_step at heq
          rw [if_neg (by simp [hpid])] at heq
          rw [Option.some_inj, Prod.mk.injEq] at heq
          simp [← heq.1]
        · exact ih used2 uF msgs2 heq2 m hm1 hm0

lemma sum_filter_occupied (msgs : List PowerRequirementMsg)
    (h : ∀ m ∈ msgs, m.user_id = 0 → m.power = 0) :
    ((msgs.filter fun m => m.user_id != 0).map fun m => m.power).sum =
      (msgs.map fun m => m.power).sum := by
  induction msgs with
  | nil => rfl
  | cons m rest ih =>
    have hrest := ih fun x hx => h x (List.mem_cons_of_mem m hx)
    by_cases hm : m.user_id = 0
    · have hp : m.power = 0 := h m (List.mem_cons_self m rest) hm
      simp [List.filter_cons, hm, hrest, hp]
    · simp [List.filter_cons, hm, hrest]

/-- C2: whenever `_send_power_requirement_message` completes, the sum of the
powers carried by the `PowerRequirementMessage`s of the occupied (connected)
slots is at most the grid's `current_available_power`, for any users and
stations (available power taken nonnegative). -/
theorem power_requirement_sum_le_available (users : List UserData)
    (stations : List StationData) (C : ℚ) (start_time end_time : ℤ)
    (msgs : List PowerRequirementMsg)
    (h : send_power_requirement_message users stations C start_time end_time
      = some msgs)
    (hC : 0 ≤ C) :
    ((msgs.filter fun m => m.user_id != 0).map fun m => m.power).sum ≤ C := by
  unfold send_power_requirement_message at h
  split at h
  next heq => exact Option.noConfusion h
  next uF msgs2 heq =>
    rw [Option.some_inj] at h
    subst h
    rw [sum_filter_occupied msgs2
      (alloc_run_vacant_power_zero C (end_time - start_time) _ 0 uF msgs2 heq)]
    obtain ⟨h1, h2⟩ := alloc_run_accum C (end_time - start_time) _ 0 uF msgs2
      heq hC
    linarith

/-- Witness for `power_requirement_sum_le_available`: one connected user at
one station with available power 10 gets `min(22, 11, 10, 24) = 10`, and the
sum `10` is at most `10`. -/
theorem power_requirement_sum_le_available_witness :
    send_power_requirement_message [c2_user] [c2_station] 10 0 3600 =
        some [{ station_id := "S1", user_id := 1, power := 10 }] ∧
      (0 : ℚ) ≤ 10 ∧
      ((([{ station_id := "S1", user_id := 1, power := 10 }] :
            List PowerRequirementMsg).filter
          fun m => m.user_id != 0).map fun m => m.power).sum ≤ 10 := by
  have h : send_power_requirement_message [c2_user] [c2_station] 10 0 3600 =
      some [{ station_id := "S1", user_id := 1, power := 10 }] := by
    unfold send_power_requirement_message
    norm_num [sorted_connected_users, connected_users,
      calculate_power_requirements, occupied_slots, empty_slots,
      List.insertionSort, List.orderedInsert, mkPowerInfo, alloc_run,
      alloc_step, c2_user, c2_station, min_def]
  exact ⟨h, by norm_num,
    power_requirement_sum_le_available [c2_user] [c2_station] 10 0 3600 _ h
      (by norm_num)⟩

lemma filter_station_le_one (l : List UserData) (sid : String)
    (h : l.Pairwise fun a b => a.station_id ≠ b.station_id) :
    (l.filter fun u => u.station_id == sid).length ≤ 1 := by
  induction l with
  | nil => simp
  | cons a l ih =>
    rw [List.pairwise_cons] at h
    obtain ⟨ha, hl⟩ := h
    rw [List.filter_cons]
    by_cases hc : a.station_id == sid
    · rw [if_pos hc]
      have hnil : l.filter (fun u => u.station_id == sid) = [] := by
        rw [List.filter_eq_nil_iff]
        intro u hu hcu
        exact ha u hu (by rw [beq_iff_eq] at hc hcu; rw [hc, hcu])
      rw [hnil]
      simp
    · rw [if_neg hc]
      exact ih hl

lemma alloc_run_ids (C : ℚ) (len : ℤ) :
    ∀ (pis : List PowerInfo) (used usedF : ℚ)
      (msgs : List PowerRequirementMsg),
      alloc_run C len pis used = some (usedF, msgs) →
        msgs.map (fun m => m.station_id) =
            pis.map (fun pi => pi.station_id) ∧
          msgs.map (fun m => m.user_id) = pis.map (fun pi => pi.user_id) := by
  intro pis
  induction pis with
  | nil =>
    intro used usedF msgs h
    rw [alloc_run, Option.some_inj, Prod.mk.injEq] at h
    rw [← h.2]
    exact ⟨rfl, rfl⟩
  | cons pi rest ih =>
    intro used usedF msgs h
    rw [alloc_run] at h
    split at h
    next heq => exact Option.noConfusion h
    next p used2 heq =>
      split at h
      next heq2 => exact Option.noConfusion h
      next uF msgs2 heq2 =>
        rw [Option.some_inj, Prod.mk.injEq] at h
        obtain ⟨hu, hm⟩ := h
        obtain ⟨i1, i2⟩ := ih used2 uF msgs2 heq2
        rw [← hm]
        simp [i1, i2]

lemma occupied_empty_length (stations : List StationData)
    (connected : List UserData)
    (h1 : ∀ stn ∈ stations,
      (connected.filter fun u => u.station_id == stn.station_id).length ≤ 1) :
    (occupied_slots stations connected).length +
      (empty_slots stations connected).length = stations.length := by
  unfold occupied_slots empty_slots
  induction stations with
  | nil => simp
  | cons stn rest ih =>
    have hrest := ih fun s hs => h1 s (List.mem_cons_of_mem stn hs)
    have hhead := h1 stn (List.mem_cons_self stn rest)
    rw [List.flatMap_cons, List.filter_cons]
    by_cases hany : connected.any fun u => u.station_id == stn.station_id
    · have hpos :
          0 < (connected.filter fun u =>
            u.station_id == stn.station_id).length := by
        rw [List.length_pos]
        rw [List.any_eq_true] at hany
        obtain ⟨u, hu, hcu⟩ := hany
        intro hnil
        rw [List.filter_eq_nil_iff] at hnil
        exact hnil u hu hcu
      have hone : (connected.filter fun u =>
          u.station_id == stn.station_id).length = 1 :=
        le_antisymm hhead hpos
      simp [hany, hone] at hrest ⊢
      omega
    · have hnil : connected.filter (fun u => u.station_id == stn.station_id)
          = [] := by
        rw [List.filter_eq_nil_iff]
        intro u hu hcu
        exact hany (List.any_eq_true.mpr ⟨u, hu, hcu⟩)
      simp [hany, hnil] at hrest ⊢
      omega

lemma occupied_empty_sid_perm (stations : List StationData)
    (connected : List UserData)
    (h1 : ∀ stn ∈ stations,
      (connected.filter fun u => u.station_id == stn.station_id).length ≤ 1) :
    ((occupied_slots stations connected).map (fun pi => pi.station_id)
        ++ (empty_slots stations connected).map (fun pi => pi.station_id)).Perm
      (stations.map fun s => s.station_id) := by
  unfold occupied_slots empty_slots
  induction stations with
  | nil => simp
  | cons stn rest ih =>
    have hrest := ih fun s hs => h1 s (List.mem_cons_of_mem stn hs)
    have hhead := h1 stn (List.mem_cons_self stn rest)
    rw [List.flatMap_cons, List.filter_cons]
    by_cases hany : connected.any fun u => u.station_id == stn.station_id
    · have hpos :
          0 < (connected.filter fun u =>
            u.station_id == stn.station_id).length := by
        rw [List.length_pos]
        rw [List.any_eq_true] at hany
        obtain ⟨u, hu, hcu⟩ := hany
        intro hnil
        rw [List.filter_eq_nil_iff] at hnil
        exact hnil u hu hcu
      have hone : (connected.filter fun u =>
          u.station_id == stn.station_id).length = 1 :=
        le_antisymm hhead hpos
      obtain ⟨u, hu⟩ := List.length_eq_one.mp hone
      have humem : u ∈ connected.filter fun x =>
          x.station_id == stn.station_id := by
        rw [hu]
        exact List.mem_singleton_self u
      have husid : u.station_id = stn.station_id := by
        rw [List.mem_filter] at humem
        exact beq_iff_eq.mp humem.2
      have hg1 : (connected.any fun x => x.station_id == stn.station_id)
          = true := hany
      rw [hu, hg1, Bool.not_true, if_neg (by simp : ¬((false : Bool) = true))]
      simp only [List.map_cons, List.map_nil, List.map_append,
        List.cons_append, List.nil_append]
      rw [show (mkPowerInfo stn u).station_id = stn.station_id from husid]
      exact List.Perm.cons _ hrest
    · have hnil : connected.filter (fun u => u.station_id == stn.station_id)
          = [] := by
        rw [List.filter_eq_nil_iff]
        intro u hu hcu
        exact hany (List.any_eq_true.mpr ⟨u, hu, hcu⟩)
      have hg : (connected.any fun u => u.station_id == stn.station_id)
          = false := by
        cases hb : connected.any fun u => u.station_id == stn.station_id
        · rfl
        · exact absurd hb hany
      rw [hnil, hg, Bool.not_false, if_pos rfl]
      simp only [List.map_nil, List.nil_append, List.map_cons,
        List.map_append]
      exact List.Perm.trans List.perm_middle (List.Perm.cons _ hrest)

lemma mem_occupied_user_id (stations : List StationData)
    (connected : List UserData)
    (hid : ∀ u ∈ connected, u.user_id ≠ 0) :
    ∀ x ∈ occupied_slots stations connected, x.user_id ≠ 0 := by
  intro x hx
  unfold occupied_slots at hx
  rw [List.mem_flatMap] at hx
  obtain ⟨stn, hstn, hx2⟩ := hx
  rw [List.mem_map] at hx2
  obtain ⟨u, hu, hxu⟩ := hx2
  rw [List.mem_filter] at hu
  rw [← hxu]
  exact hid u hu.1

/-- C3: when `_send_power_requirement_message` completes (users at pairwise
distinct stations, user ids nonzero, as the data model requires), it emits
exactly one `PowerRequirementMessage` per known station — the message count
equals the station count and the station ids of the messages are a
permutation of the known station ids; every message for a vacant slot
carries `user_id = 0` and `power = 0`; and the slot list is the occupied
slots sorted by `(target_time ascending, required_energy descending)`
followed by the vacant slots, the messages following that order. -/
theorem power_requirement_per_station (users : List UserData)
    (stations : List StationData) (C : ℚ) (start_time end_time : ℤ)
    (msgs : List PowerRequirementMsg)
    (hdist : users.Pairwise fun a b => a.station_id ≠ b.station_id)
    (hid : ∀ u ∈ users, u.user_id ≠ 0)
    (h : send_power_requirement_message users stations C start_time end_time
      = some msgs) :
    msgs.length = stations.length ∧
      (msgs.map fun m => m.station_id).Perm
        (stations.map fun s => s.station_id) ∧
      (∀ m ∈ msgs, m.user_id = 0 → m.power = 0) ∧
      ∃ a b,
        calculate_power_requirements stations
            (sorted_connected_users users start_time end_time) = a ++ b ∧
          a.Sorted piPrio ∧
          (∀ x ∈ a, x.user_id ≠ 0) ∧
          (∀ x ∈ b, x.user_id = 0) ∧
          msgs.map (fun m => m.user_id) = (a ++ b).map (fun x => x.user_id) := by
  have hsub : (connected_users users start_time end_time).Sublist users :=
    List.filter_sublist users
  have hperm : (sorted_connected_users users start_time end_time).Perm
      (connected_users users start_time end_time) :=
    List.perm_insertionSort userPrio _
  have hpair : (sorted_connected_users users start_time end_time).Pairwise
      fun a b => a.station_id ≠ b.station_id :=
    (List.Perm.pairwise_iff (fun hxy => Ne.symm hxy) hperm).mpr
      (List.Pairwise.sublist hsub hdist)
  have h1 : ∀ stn ∈ stations,
      ((sorted_connected_users users start_time end_time).filter
        fun u => u.station_id == stn.station_id).length ≤ 1 :=
    fun stn _ => filter_station_le_one _ _ hpair
  have hid2 : ∀ u ∈ sorted_connected_users users start_time end_time,
      u.user_id ≠ 0 :=
    fun u hu => hid u (hsub.subset (hperm.mem_iff.mp hu))
  unfold send_power_requirement_message at h
  split at h
  next heq => exact Option.noConfusion h
  next uF msgs2 heq =>
    rw [Option.some_inj] at h
    subst h
    obtain ⟨isid, iuid⟩ :=
      alloc_run_ids C (end_time - start_time) _ 0 uF msgs2 heq
    have hlen_pis : (calculate_power_requirements stations
        (sorted_connected_users users start_time end_time)).length
        = stations.length := by
      unfold calculate_power_requirements
      rw [List.length_append, (List.perm_insertionSort piPrio _).length_eq]
      exact occupied_empty_length stations _ h1
    have hlen : msgs2.length = stations.length := by
      have hm := congrArg List.length isid
      simp only [List.length_map] at hm
      rw [hm, hlen_pis]
    refine ⟨hlen, ?_,
      alloc_run_vacant_power_zero C (end_time - start_time) _ 0 uF msgs2 heq,
      ?_⟩
    · rw [isid]
      unfold calculate_power_requirements
      rw [List.map_append]
      exact List.Perm.trans
        (List.Perm.append_right _ ((List.perm_insertionSort piPrio _).map _))
        (occupied_empty_sid_perm stations _ h1)
    · refine ⟨List.insertionSort piPrio (occupied_slots stations
          (sorted_connected_users users start_time end_time)),
        empty_slots stations
          (sorted_connected_users users start_time end_time),
        rfl, List.sorted_insertionSort piPrio _, ?_, ?_, ?_⟩
      · intro x hx
        exact mem_occupied_user_id stations _ hid2 x
          ((List.perm_insertionSort piPrio _).mem_iff.mp hx)
      · intro x hx
        unfold empty_slots at hx
        rw [List.mem_map] at hx
        obtain ⟨stn, hstn, hxe⟩ := hx
        rw [← hxe]
      · exact iuid

/-- Witness for `power_requirement_per_station`: one connected user at
station `S1` and a vacant station `S2` yield exactly the two messages
`(S1, 1, 10)` and `(S2, 0, 0)`. -/
theorem power_requirement_per_station_witness :
    ([c3_user].Pairwise fun a b => a.station_id ≠ b.station_id) ∧
      (∀ u ∈ [c3_user], u.user_id ≠ 0) ∧
      send_power_requirement_message [c3_user] [c3_station1, c3_station2]
          10 0 3600 =
        some [{ station_id := "S1", user_id := 1, power := 10 },
          { station_id := "S2", user_id := 0, power := 0 }] ∧
      ([{ station_id := "S1", user_id := 1, power := 10 },
          ({ station_id := "S2", user_id := 0, power := 0 } :
            PowerRequirementMsg)].length =
          [c3_station1, c3_station2].length ∧
        ([{ station_id := "S1", user_id := 1, power := 10 },
            ({ station_id := "S2", user_id := 0, power := 0 } :
              PowerRequirementMsg)].map fun m => m.station_id).Perm
          ([c3_station1, c3_station2].map fun s => s.station_id) ∧
        (∀ m ∈ [{ station_id := "S1", user_id := 1, power := 10 },
            ({ station_id := "S2", user_id := 0, power := 0 } :
              PowerRequirementMsg)], m.user_id = 0 → m.power = 0) ∧
        ∃ a b,
          calculate_power_requirements [c3_station1, c3_station2]
              (sorted_connected_users [c3_user] 0 3600) = a ++ b ∧
            a.Sorted piPrio ∧
            (∀ x ∈ a, x.user_id ≠ 0) ∧
            (∀ x ∈ b, x.user_id = 0) ∧
            ([{ station_id := "S1", user_id := 1, power := 10 },
                ({ station_id := "S2", user_id := 0, power := 0 } :
                  PowerRequirementMsg)].map fun m => m.user_id) =
              (a ++ b).map fun x => x.user_id) := by
  have hdist : [c3_user].Pairwise fun a b => a.station_id ≠ b.station_id := by
    simp
  have hid : ∀ u ∈ [c3_user], u.user_id ≠ 0 := by decide
  have h : send_power_requirement_message [c3_user]
      [c3_station1, c3_station2] 10 0 3600 =
      some [{ station_id := "S1", user_id := 1, power := 10 },
        { station_id := "S2", user_id := 0, power := 0 }] := by
    unfold send_power_requirement_message
    norm_num [sorted_connected_users, connected_users,
      calculate_power_requirements, occupied_slots, empty_slots,
      List.insertionSort, List.orderedInsert, mkPowerInfo, alloc_run,
      alloc_step, c3_user, c3_station1, c3_station2, min_def]
  exact ⟨hdist, hid, h,
    power_requirement_per_station [c3_user] [c3_station1, c3_station2]
      10 0 3600 _ hdist hid h⟩

end V2G
